import Mathlib

/-!
Shallow embedding of `smsru.py`, an sms.ru HTTP API client (Python 2).

The network, the clock and the `hashlib.md5` primitive are external to the
repository, so they enter the model as explicit parameters:
  * `body`     : the raw HTTP response body that `urllib2.urlopen(url).read()`
                 would return for the one request a call makes;
  * `now`      : the value of `time.time()` during the call (an integer clock);
  * `freshTok` : the first response line of the `auth/get_token` request that
                 `self.token()` would perform, used only when a fetch happens;
  * `md5hex`   : the `hashlib.md5(x).hexdigest()` primitive, as an abstract
                 `String → String` function.
Python dictionaries are modelled extensionally as `String → Option String`;
Python 2 string values (which may be `unicode` or byte `str`) as `PyStr`.
-/

namespace Smsru

/-- Python 2 string: either a `unicode` text or a byte `str` (bytes 0..255). -/
inductive PyStr where
  | uni (s : String)
  | bytes (b : List Nat)

/-- The exceptions the client can raise.  `NotConfigured`, `WrongKey`,
`InternalError` and `Unavailable` are the classes defined in `smsru.py`;
`ValueError` covers Python's built-in validation errors (including
`UnicodeDecodeError`, a `ValueError` subclass), `IndexError` a list index out
of range, and `GenericError` the bare `Exception(res[0])` raised by
`balance`/`limit`. -/
inductive ApiError where
  | NotConfigured (msg : String)
  | WrongKey (msg : String)
  | InternalError (msg : String)
  | Unavailable (msg : String)
  | ValueError (msg : String)
  | GenericError (msg : String)
  | IndexError
deriving DecidableEq

deriving instance DecidableEq for Except

/-- A Python dict of string keys and string values, modelled extensionally. -/
def Args : Type := String → Option String

/-- `d[k] = v` (dict assignment, overwrites). -/
def Args.set (a : Args) (k v : String) : Args :=
  fun q => if q = k then some v else a q

/-- `del d[k]`. -/
def Args.del (a : Args) (k : String) : Args :=
  fun q => if q = k then none else a q

/-- The empty dict `{}`. -/
def Args.empty : Args := fun _ => none

/-- `dict(pairs)`: later occurrences of a key win. -/
def Args.ofList (l : List (String × String)) : Args :=
  l.foldl (fun d p => d.set p.1 p.2) Args.empty

/-- Characters stripped by Python's `str.strip()`: space, tab, newline,
carriage return, vertical tab, form feed. -/
def pySpace (c : Char) : Bool :=
  [' ', '\t', '\n', '\r', '\x0b', '\x0c'].contains c

/-- Python `s.strip()`: drop leading and trailing whitespace. -/
def pyStrip (s : String) : String :=
  String.mk (((s.toList.dropWhile pySpace).reverse.dropWhile pySpace).reverse)

/-- Python `s.lstrip("+")`: drop leading `'+'` characters. -/
def lstripPlus (s : String) : String :=
  String.mk (s.toList.dropWhile (fun c => c == '+'))

/-- Helper for `split("\n")`: split a character list at every newline. -/
def splitNlAux : List Char → List Char → List String
  | [], acc => [String.mk acc.reverse]
  | c :: rest, acc =>
    if c == '\n' then String.mk acc.reverse :: splitNlAux rest []
    else splitNlAux rest (c :: acc)

/-- `read().strip().split("\n")`: the response lines of one HTTP call.
Always non-empty (`split` of any string yields at least one piece). -/
def parseResponse (body : String) : List String :=
  splitNlAux (pyStrip body).toList []

/-- Helper for `line.split("=", 1)`: split at the first `'='` only. -/
def splitEqAux : List Char → List Char → List String
  | [], acc => [String.mk acc.reverse]
  | c :: rest, acc =>
    if c == '=' then [String.mk acc.reverse, String.mk rest]
    else splitEqAux rest (c :: acc)

/-- Numeric value of a digit list. -/
def natVal (ds : List Char) : Nat :=
  ds.foldl (fun a c => a * 10 + (c.toNat - 48)) 0

/-- Python `int(s)` on a string: optional sign, decimal digits; `none` when
the literal is invalid (a `ValueError` in Python). -/
def pyInt (s : String) : Option Int :=
  let cs := (pyStrip s).toList
  let neg := cs.headD ' ' == '-'
  let ds := if cs.headD ' ' == '-' || cs.headD ' ' == '+' then cs.tail else cs
  if ds.isEmpty then none
  else if ds.all (fun c => c.isDigit) then
    some (if neg then -(natVal ds : Int) else (natVal ds : Int))
  else none

/-- Helper for float parsing: split a character list at every `'.'`. -/
def splitDotAux : List Char → List Char → List (List Char)
  | [], acc => [acc.reverse]
  | c :: rest, acc =>
    if c == '.' then acc.reverse :: splitDotAux rest []
    else splitDotAux rest (c :: acc)

/-- Python `float(s)` on the decimal forms the server sends (optional sign,
digits, optional fraction), as an exact rational; `none` when invalid. -/
def pyFloat (s : String) : Option Rat :=
  let cs := (pyStrip s).toList
  let neg := cs.headD ' ' == '-'
  let ds := if cs.headD ' ' == '-' || cs.headD ' ' == '+' then cs.tail else cs
  match splitDotAux ds [] with
  | [a] =>
    if a.isEmpty then none
    else if a.all (fun c => c.isDigit) then
      some ((if neg then -1 else 1) * (natVal a : Rat))
    else none
  | [a, b] =>
    if a.isEmpty && b.isEmpty then none
    else if a.all (fun c => c.isDigit) && b.all (fun c => c.isDigit) then
      some ((if neg then -1 else 1) *
        ((natVal a : Rat) + (natVal b : Rat) / ((10 : Rat) ^ b.length)))
    else none
  | _ => none

/-- `message.encode("utf-8")` as it affects the request: a `unicode` encodes
to its own text; a byte `str` is first implicitly decoded as ASCII by
Python 2, which succeeds exactly when every byte is below 128 and raises
`UnicodeDecodeError` otherwise. -/
def pyEncodeUtf8Str : PyStr → Option String
  | .uni s => some s
  | .bytes b =>
    if b.all (fun c => c < 128) then some (String.mk (b.map Char.ofNat))
    else none

/-- `SEND_STATUS` table (`smsru.py` lines 41-52). -/
def SEND_STATUS : List (Int × String) :=
  [(100, "Message accepted"),
   (201, "Out of money"),
   (202, "Bad recipient"),
   (203, "Message text not specified"),
   (204, "Bad sender (unapproved)"),
   (205, "Message too long"),
   (206, "Day message limit reached"),
   (207, "Can\x27t send messages to that number"),
   (208, "Wrong time"),
   (209, "Blacklisted recipient")]

/-- `STATUS_STATUS` table (`smsru.py` lines 54-65). -/
def STATUS_STATUS : List (Int × String) :=
  [(-1, "Message not found"),
   (100, "Message is in the queue"),
   (101, "Message is on the way to the operator"),
   (102, "Message is on the way to the recipient"),
   (103, "Message delivered"),
   (104, "Message failed: out of time"),
   (105, "Message failed: cancelled by the operator"),
   (106, "Message failed: phone malfunction"),
   (107, "Message failed, reason unknown"),
   (108, "Message declined")]

/-- `COST_STATUS` table (`smsru.py` lines 67-69). -/
def COST_STATUS : List (Int × String) := [(100, "Success")]

/-- Python `table.get(k, d)` on the status dicts. -/
def dGet (tbl : List (Int × String)) (k : Int) (d : String) : String :=
  match tbl.find? (fun p => p.1 == k) with
  | some p => p.2
  | none => d

/-- `CONFIG_FILES` (`smsru.py` line 39). -/
def CONFIG_FILES : List String := ["~/.config/smsru.conf", "/etc/smsru.conf"]

/-- One line of the config file: `[x.strip() for x in line.split("=", 1)]`. -/
def configLine (line : String) : List String :=
  (splitEqAux line.toList []).map pyStrip

/-- Parse a config file body (`Client._load_config`, lines 107-109):
strip, split into lines, split each at the first `=`, trim, and build the
dict.  `none` models the `ValueError` that `dict(items)` raises when a line
has no `=` (its item then has length 1, not 2). -/
def parseConfig (raw : String) : Option Args :=
  let items := (splitNlAux (pyStrip raw).toList []).map configLine
  if items.all (fun it => it.length == 2) then
    some (items.foldl (fun d it => d.set (it.headD "") ((it.getD 1 ""))) Args.empty)
  else none

/-- The client's mutable state: the credential dict plus the token cache
(`self._token`, `self._token_ts`). -/
structure Client where
  config : Args
  token : Option String
  tokenTs : Int

/-- `Client.__init__` (lines 94-101).  `fs` maps a candidate path to its
content when the file exists (`os.path.exists` + `read`). -/
def clientInit (fs : String → Option String) : Except ApiError Client :=
  match CONFIG_FILES.findSome? fs with
  | none =>
    .error (.NotConfigured
      ("Config file not found, options: " ++ String.intercalate " " CONFIG_FILES))
  | some raw =>
    match parseConfig raw with
    | none => .error (.ValueError "dictionary update sequence element has length 1; 2 is required")
    | some cfg =>
      if (cfg "key").isNone then .error (.NotConfigured "API key not set.")
      else .ok { config := cfg, token := none, tokenTs := 0 }

/-- `Client._get_token` (lines 142-149): invalidate a token older than 500
seconds, fetch a fresh one when none is cached.  Returns the token, the new
client state, and whether a remote `auth/get_token` request was made. -/
def Client.getToken (c : Client) (now : Int) (freshTok : String) :
    String × Client × Bool :=
  let cached := if c.tokenTs < now - 500 then none else c.token
  match cached with
  | some t => (t, { c with token := some t }, false)
  | none => (freshTok, { c with token := some freshTok, tokenTs := now }, true)

/-- The envelope-code check of `Client._call` (lines 130-140). -/
def checkEnvelope (res : List String) : Except ApiError (List String) :=
  if res.headD "" = "200" then .error (.WrongKey "The supplied API key is wrong")
  else if res.headD "" = "210" then .error (.InternalError "GET used when POST must have been")
  else if res.headD "" = "211" then .error (.InternalError "Unknown method")
  else if res.headD "" = "220" then .error (.Unavailable "The service is temporarily unavailable")
  else if res.headD "" = "301" then .error (.NotConfigured "Wrong password")
  else .ok res

/-- What one `_call` did: the resulting client state, the query parameters
actually sent, whether an `auth/get_token` request happened, and the decoded
outcome. -/
structure CallOut (α : Type) where
  client : Client
  sentArgs : Args
  fetched : Bool
  result : Except ApiError α

/-- `Client._call` (lines 112-140).  Builds the parameters (simple auth via
`api_id`, or enhanced auth with `login`/`token`/`sig` for `sms/send` and
`sms/cost` when both credentials are truthy), then checks the envelope codes
of the response. -/
def Client.call (c : Client) (md5hex : String → String) (now : Int)
    (freshTok : String) (method : String) (args : Args) (body : String) :
    CallOut (List String) :=
  let args1 := args.set "api_id" ((c.config "key").getD "")
  let enh :=
    if method = "sms/send" ∨ method = "sms/cost" then
      let login := lstripPlus ((c.config "login").getD "")
      let pw := (c.config "password").getD ""
      if login ≠ "" ∧ pw ≠ "" then
        let t := c.getToken now freshTok
        let args2 :=
          (((args1.set "login" login).set "token" t.1).set
            "sig" (md5hex (pw ++ t.1))).del "api_id"
        (args2, t.2.1, t.2.2)
      else (args1, c, false)
    else (args1, c, false)
  { client := enh.2.1, sentArgs := enh.1, fetched := enh.2.2,
    result := checkEnvelope (parseResponse body) }

/-- Post-compose a decode step on the response lines of a `_call`. -/
def callMap {α : Type} (o : CallOut (List String))
    (g : List String → Except ApiError α) : CallOut α :=
  { client := o.client, sentArgs := o.sentArgs, fetched := o.fetched,
    result := o.result.bind g }

/-- The result construction of `Client.send` (lines 164-167): pad with one
`None` unless the code is `"100"`, then return
`(int(res[0]), SEND_STATUS.get(...), res[1])`. -/
def sendDecode (res : List String) :
    Except ApiError (Int × String × Option String) :=
  let res2 : List (Option String) :=
    if res.headD "" ≠ "100" then res.map some ++ [none] else res.map some
  match pyInt (res.headD "") with
  | none => .error (.ValueError "invalid literal for int()")
  | some code =>
    match res2.get? 1 with
    | none => .error .IndexError
    | some mid => .ok (code, dGet SEND_STATUS code "Unknown status", mid)

/-- The query parameters `send` builds (lines 157-163). -/
def sendArgs (c : Client) (dest m : String) (express test : Bool) : Args :=
  let args0 := (Args.empty.set "to" dest).set "text" m
  let args1 :=
    match c.config "sender" with
    | some s => args0.set "from" s
    | none => args0
  let args2 := if express then args1.set "express" "1" else args1
  if test then args2.set "test" "1" else args2

/-- `Client.send` (lines 151-167). -/
def Client.send (c : Client) (md5hex : String → String) (now : Int)
    (freshTok : String) (dest : String) (message : PyStr) (express test : Bool)
    (body : String) : CallOut (Int × String × Option String) :=
  match message with
  | .bytes _ =>
    { client := c, sentArgs := Args.empty, fetched := false,
      result := .error (.ValueError "message must be a unicode") }
  | .uni m =>
    callMap (c.call md5hex now freshTok "sms/send" (sendArgs c dest m express test) body)
      sendDecode

/-- The result construction of `Client.status` (lines 171-174). -/
def statusDecode (res : List String) : Except ApiError (Int × String) :=
  match pyInt (res.headD "") with
  | none => .error (.ValueError "invalid literal for int()")
  | some code => .ok (code, dGet STATUS_STATUS code "Unknown status")

/-- `Client.status` (lines 169-174). -/
def Client.status (c : Client) (md5hex : String → String) (now : Int)
    (freshTok : String) (msgid : String) (body : String) :
    CallOut (Int × String) :=
  callMap (c.call md5hex now freshTok "sms/status" (Args.empty.set "id" msgid) body)
    statusDecode

/-- The result construction of `Client.cost` (lines 179-181): pad with two
`None`s unless the code is `"100"`, then return
`(int(res[0]), COST_STATUS.get(...), res[1], res[2])`. -/
def costDecode (res : List String) :
    Except ApiError (Int × String × Option String × Option String) :=
  let res2 : List (Option String) :=
    if res.headD "" ≠ "100" then res.map some ++ [none, none] else res.map some
  match pyInt (res.headD "") with
  | none => .error (.ValueError "invalid literal for int()")
  | some code =>
    match res2.get? 1 with
    | none => .error .IndexError
    | some c1 =>
      match res2.get? 2 with
      | none => .error .IndexError
      | some c2 => .ok (code, dGet COST_STATUS code "Unknown status", c1, c2)

/-- `Client.cost` (lines 176-181).  Unlike `send` there is no `isinstance`
check: the message is encoded straight away, so only a non-ASCII byte `str`
fails (inside `encode`), before the request is made. -/
def Client.cost (c : Client) (md5hex : String → String) (now : Int)
    (freshTok : String) (dest : String) (message : PyStr) (body : String) :
    CallOut (Int × String × Option String × Option String) :=
  match pyEncodeUtf8Str message with
  | none =>
    { client := c, sentArgs := Args.empty, fetched := false,
      result := .error (.ValueError "UnicodeDecodeError: ascii codec can not decode byte") }
  | some m =>
    callMap (c.call md5hex now freshTok "sms/cost" ((Args.empty.set "to" dest).set "text" m) body)
      costDecode

/-- The result construction of `Client.balance` (lines 186-188). -/
def balanceDecode (res : List String) : Except ApiError Rat :=
  if res.headD "" = "100" then
    match res.get? 1 with
    | none => .error .IndexError
    | some s =>
      match pyFloat s with
      | none => .error (.ValueError "could not convert string to float")
      | some v => .ok v
  else .error (.GenericError (res.headD ""))

/-- `Client.balance` (lines 183-188). -/
def Client.balance (c : Client) (md5hex : String → String) (now : Int)
    (freshTok : String) (body : String) : CallOut Rat :=
  callMap (c.call md5hex now freshTok "my/balance" Args.empty body) balanceDecode

/-- The result construction of `Client.limit` (lines 193-195). -/
def limitDecode (res : List String) : Except ApiError Int :=
  if res.headD "" = "100" then
    match res.get? 1 with
    | none => .error .IndexError
    | some s =>
      match pyInt s with
      | none => .error (.ValueError "invalid literal for int()")
      | some v => .ok v
  else .error (.GenericError (res.headD ""))

/-- `Client.limit` (lines 190-195). -/
def Client.limit (c : Client) (md5hex : String → String) (now : Int)
    (freshTok : String) (body : String) : CallOut Int :=
  callMap (c.call md5hex now freshTok "my/limit" Args.empty body) limitDecode

/-- `Client.token` (lines 197-199), named `tokenCall` here because `token`
is the cache field. -/
def Client.tokenCall (c : Client) (md5hex : String → String) (now : Int)
    (freshTok : String) (body : String) : CallOut String :=
  callMap (c.call md5hex now freshTok "auth/get_token" Args.empty body)
    (fun res =>
      match res.get? 0 with
      | none => .error .IndexError
      | some t => .ok t)

/-- A concrete stand-in hash for evaluating the model on examples. -/
def md5c : String → String := fun s => "h(" ++ s ++ ")"

/-- A client configured for simple auth only. -/
def cl0 : Client :=
  { config := Args.ofList [("key", "k")], token := none, tokenTs := 0 }

/-- A client configured for enhanced auth. -/
def clE : Client :=
  { config := Args.ofList [("key", "k"), ("login", "alice"), ("password", "secret")],
    token := none, tokenTs := 0 }

/-- A client whose login is a bare `"+"` (strips to empty). -/
def clP : Client :=
  { config := Args.ofList [("key", "k"), ("login", "+"), ("password", "secret")],
    token := none, tokenTs := 0 }


/-! ## Helper lemmas -/

theorem Args.get_set_self (a : Args) (k v : String) : a.set k v k = some v := by
  simp [Args.set]

theorem Args.get_set_ne (a : Args) (k v q : String) (h : q ≠ k) : a.set k v q = a q := by
  simp [Args.set, h]

theorem Args.get_del_self (a : Args) (k : String) : a.del k k = none := by
  simp [Args.del]

theorem Args.get_del_ne (a : Args) (k q : String) (h : q ≠ k) : a.del k q = a q := by
  simp [Args.del, h]

theorem lstripPlus_empty : lstripPlus "" = "" := rfl

theorem call_result (c : Client) (md5hex : String → String) (now : Int)
    (f method : String) (args : Args) (body : String) :
    (c.call md5hex now f method args body).result = checkEnvelope (parseResponse body) := rfl

theorem send_uni_result (c : Client) (md5hex : String → String) (now : Int)
    (f dest m : String) (e t : Bool) (body : String) :
    (c.send md5hex now f dest (.uni m) e t body).result
      = (checkEnvelope (parseResponse body)).bind sendDecode := rfl

theorem send_uni_sentArgs (c : Client) (md5hex : String → String) (now : Int)
    (f dest m : String) (e t : Bool) (body : String) :
    (c.send md5hex now f dest (.uni m) e t body).sentArgs
      = (c.call md5hex now f "sms/send" (sendArgs c dest m e t) body).sentArgs := rfl

theorem send_uni_client (c : Client) (md5hex : String → String) (now : Int)
    (f dest m : String) (e t : Bool) (body : String) :
    (c.send md5hex now f dest (.uni m) e t body).client
      = (c.call md5hex now f "sms/send" (sendArgs c dest m e t) body).client := rfl

theorem send_uni_fetched (c : Client) (md5hex : String → String) (now : Int)
    (f dest m : String) (e t : Bool) (body : String) :
    (c.send md5hex now f dest (.uni m) e t body).fetched
      = (c.call md5hex now f "sms/send" (sendArgs c dest m e t) body).fetched := rfl

theorem cost_uni_result (c : Client) (md5hex : String → String) (now : Int)
    (f dest m : String) (body : String) :
    (c.cost md5hex now f dest (.uni m) body).result
      = (checkEnvelope (parseResponse body)).bind costDecode := rfl

theorem cost_uni_sentArgs (c : Client) (md5hex : String → String) (now : Int)
    (f dest m : String) (body : String) :
    (c.cost md5hex now f dest (.uni m) body).sentArgs
      = (c.call md5hex now f "sms/cost" ((Args.empty.set "to" dest).set "text" m) body).sentArgs := rfl

theorem cost_uni_client (c : Client) (md5hex : String → String) (now : Int)
    (f dest m : String) (body : String) :
    (c.cost md5hex now f dest (.uni m) body).client
      = (c.call md5hex now f "sms/cost" ((Args.empty.set "to" dest).set "text" m) body).client := rfl

theorem cost_uni_fetched (c : Client) (md5hex : String → String) (now : Int)
    (f dest m : String) (body : String) :
    (c.cost md5hex now f dest (.uni m) body).fetched
      = (c.call md5hex now f "sms/cost" ((Args.empty.set "to" dest).set "text" m) body).fetched := rfl

theorem status_result (c : Client) (md5hex : String → String) (now : Int)
    (f msgid body : String) :
    (c.status md5hex now f msgid body).result
      = (checkEnvelope (parseResponse body)).bind statusDecode := rfl

theorem balance_result (c : Client) (md5hex : String → String) (now : Int)
    (f body : String) :
    (c.balance md5hex now f body).result
      = (checkEnvelope (parseResponse body)).bind balanceDecode := rfl

theorem limit_result (c : Client) (md5hex : String → String) (now : Int)
    (f body : String) :
    (c.limit md5hex now f body).result
      = (checkEnvelope (parseResponse body)).bind limitDecode := rfl

theorem tokenCall_result (c : Client) (md5hex : String → String) (now : Int)
    (f body : String) :
    (c.tokenCall md5hex now f body).result
      = (checkEnvelope (parseResponse body)).bind
          (fun res =>
            match res.get? 0 with
            | none => .error .IndexError
            | some tk => .ok tk) := rfl

/-- `_get_token` on a client with no cached token always fetches. -/
theorem getToken_none (c : Client) (now : Int) (f : String) (h : c.token = none) :
    c.getToken now f = (f, { c with token := some f, tokenTs := now }, true) := by
  simp [Client.getToken, h]

/-- `_get_token` within the freshness window reuses the cached token. -/
theorem getToken_cached (c : Client) (now : Int) (f tok : String)
    (h : ¬ c.tokenTs < now - 500) (ht : c.token = some tok) :
    c.getToken now f = (tok, { c with token := some tok }, false) := by
  simp [Client.getToken, h, ht]

/-- `_get_token` past the freshness window discards the token and fetches. -/
theorem getToken_stale (c : Client) (now : Int) (f : String)
    (h : c.tokenTs < now - 500) :
    c.getToken now f = (f, { c with token := some f, tokenTs := now }, true) := by
  simp [Client.getToken, h]

/-- `_call` on `sms/send`/`sms/cost` with truthy `login` and `password` takes
the enhanced-auth branch. -/
theorem call_enhanced (c : Client) (md5hex : String → String) (now : Int)
    (f method : String) (args : Args) (body : String) (l p : String)
    (hm : method = "sms/send" ∨ method = "sms/cost")
    (hl : c.config "login" = some l) (hl2 : lstripPlus l ≠ "")
    (hp : c.config "password" = some p) (hp2 : p ≠ "") :
    (c.call md5hex now f method args body).sentArgs =
      ((((args.set "api_id" ((c.config "key").getD "")).set "login" (lstripPlus l)).set
        "token" (c.getToken now f).1).set "sig" (md5hex (p ++ (c.getToken now f).1))).del "api_id"
    ∧ (c.call md5hex now f method args body).client = (c.getToken now f).2.1
    ∧ (c.call md5hex now f method args body).fetched = (c.getToken now f).2.2 := by
  rcases hm with hm | hm <;> subst hm <;>
    simp [Client.call, hl, hp, hl2, hp2]

/-- `_call` with falsy `login` or `password` (or a method other than
send/cost) takes the simple-auth branch. -/
theorem call_simple (c : Client) (md5hex : String → String) (now : Int)
    (f method : String) (args : Args) (body : String)
    (hw : ¬ (method = "sms/send" ∨ method = "sms/cost")
        ∨ lstripPlus ((c.config "login").getD "") = ""
        ∨ (c.config "password").getD "" = "") :
    (c.call md5hex now f method args body).sentArgs
        = args.set "api_id" ((c.config "key").getD "")
    ∧ (c.call md5hex now f method args body).client = c
    ∧ (c.call md5hex now f method args body).fetched = false := by
  by_cases hm : method = "sms/send" ∨ method = "sms/cost"
  · rcases hw with hw | hw | hw
    · exact absurd hm hw
    · simp [Client.call, hm, hw]
    · simp [Client.call, hm, hw]
  · simp [Client.call, hm]

/-- The parameters `send` builds contain none of the auth keys. -/
theorem sendArgs_none (c : Client) (dest m : String) (e t : Bool) (k : String)
    (h1 : k ≠ "to") (h2 : k ≠ "text") (h3 : k ≠ "from") (h4 : k ≠ "express")
    (h5 : k ≠ "test") :
    sendArgs c dest m e t k = none := by
  unfold sendArgs
  cases e <;> cases t <;> cases hs : c.config "sender" <;>
    simp [Args.set, Args.empty, h1, h2, h3, h4, h5]



/-- `dict.get` on a cons cell. -/
theorem dGet_cons (p : Int × String) (tl : List (Int × String)) (k : Int)
    (d : String) : dGet (p :: tl) k d = if p.1 == k then p.2 else dGet tl k d := by
  unfold dGet
  cases h : (p.1 == k) <;> simp [List.find?_cons, h]

/-- `dict.get` returns the stored text when the key occurs in a table whose
keys are distinct. -/
theorem dGet_of_mem (tbl : List (Int × String)) (k : Int) (text d : String)
    (hmem : (k, text) ∈ tbl) (hnd : (tbl.map Prod.fst).Nodup) :
    dGet tbl k d = text := by
  induction tbl with
  | nil => simp at hmem
  | cons hd tl ih =>
    rw [List.map_cons, List.nodup_cons] at hnd
    rw [List.mem_cons] at hmem
    rw [dGet_cons]
    rcases hmem with hmem | hmem
    · rw [← hmem]
      simp
    · have hk : (hd.1 == k) = false := by
        simp only [beq_eq_false_iff_ne, ne_eq]
        intro he
        apply hnd.1
        rw [he]
        exact List.mem_map_of_mem Prod.fst hmem
      rw [hk, if_neg Bool.false_ne_true]
      exact ih hmem hnd.2

/-- `dict.get` falls back to the default when no entry has the key. -/
theorem dGet_of_not_mem (tbl : List (Int × String)) (k : Int) (d : String)
    (h : ∀ p ∈ tbl, p.1 ≠ k) : dGet tbl k d = d := by
  unfold dGet
  have hf : tbl.find? (fun p => p.1 == k) = none := by
    apply List.find?_eq_none.mpr
    intro p hp
    simp [h p hp]
  rw [hf]


/-- A list of length at least two starts with two cells. -/
theorem list_shape_two {α : Type} (l : List α) (h : 2 ≤ l.length) :
    ∃ a b rest, l = a :: b :: rest := by
  cases l with
  | nil => simp at h
  | cons a tl =>
    cases tl with
    | nil => simp at h
    | cons b rest => exact ⟨a, b, rest, rfl⟩

/-! ## Claims -/

/-- C3: for every remote call made by any public method, a response whose
first line is "200" raises `WrongKey`, "210" or "211" raises `InternalError`,
"220" raises `Unavailable`, and "301" raises `NotConfigured`; any other first
line causes the full line sequence to be returned verbatim to the caller. -/
theorem c3_envelope_codes (c : Client) (md5hex : String → String) (now : Int)
    (f dest m msgid method : String) (args : Args) (e t : Bool) (body : String) :
    ((parseResponse body).headD "" = "200" →
      (c.send md5hex now f dest (.uni m) e t body).result
          = .error (.WrongKey "The supplied API key is wrong")
      ∧ (c.status md5hex now f msgid body).result
          = .error (.WrongKey "The supplied API key is wrong")
      ∧ (c.cost md5hex now f dest (.uni m) body).result
          = .error (.WrongKey "The supplied API key is wrong")
      ∧ (c.balance md5hex now f body).result
          = .error (.WrongKey "The supplied API key is wrong")
      ∧ (c.limit md5hex now f body).result
          = .error (.WrongKey "The supplied API key is wrong")
      ∧ (c.tokenCall md5hex now f body).result
          = .error (.WrongKey "The supplied API key is wrong"))
    ∧ ((parseResponse body).headD "" = "210" →
      (c.send md5hex now f dest (.uni m) e t body).result
          = .error (.InternalError "GET used when POST must have been")
      ∧ (c.status md5hex now f msgid body).result
          = .error (.InternalError "GET used when POST must have been")
      ∧ (c.cost md5hex now f dest (.uni m) body).result
          = .error (.InternalError "GET used when POST must have been")
      ∧ (c.balance md5hex now f body).result
          = .error (.InternalError "GET used when POST must have been")
      ∧ (c.limit md5hex now f body).result
          = .error (.InternalError "GET used when POST must have been")
      ∧ (c.tokenCall md5hex now f body).result
          = .error (.InternalError "GET used when POST must have been"))
    ∧ ((parseResponse body).headD "" = "211" →
      (c.send md5hex now f dest (.uni m) e t body).result
          = .error (.InternalError "Unknown method")
      ∧ (c.status md5hex now f msgid body).result
          = .error (.InternalError "Unknown method")
      ∧ (c.cost md5hex now f dest (.uni m) body).result
          = .error (.InternalError "Unknown method")
      ∧ (c.balance md5hex now f body).result
          = .error (.InternalError "Unknown method")
      ∧ (c.limit md5hex now f body).result
          = .error (.InternalError "Unknown method")
      ∧ (c.tokenCall md5hex now f body).result
          = .error (.InternalError "Unknown method"))
    ∧ ((parseResponse body).headD "" = "220" →
      (c.send md5hex now f dest (.uni m) e t body).result
          = .error (.Unavailable "The service is temporarily unavailable")
      ∧ (c.status md5hex now f msgid body).result
          = .error (.Unavailable "The service is temporarily unavailable")
      ∧ (c.cost md5hex now f dest (.uni m) body).result
          = .error (.Unavailable "The service is temporarily unavailable")
      ∧ (c.balance md5hex now f body).result
          = .error (.Unavailable "The service is temporarily unavailable")
      ∧ (c.limit md5hex now f body).result
          = .error (.Unavailable "The service is temporarily unavailable")
      ∧ (c.tokenCall md5hex now f body).result
          = .error (.Unavailable "The service is temporarily unavailable"))
    ∧ ((parseResponse body).headD "" = "301" →
      (c.send md5hex now f dest (.uni m) e t body).result
          = .error (.NotConfigured "Wrong password")
      ∧ (c.status md5hex now f msgid body).result
          = .error (.NotConfigured "Wrong password")
      ∧ (c.cost md5hex now f dest (.uni m) body).result
          = .error (.NotConfigured "Wrong password")
      ∧ (c.balance md5hex now f body).result
          = .error (.NotConfigured "Wrong password")
      ∧ (c.limit md5hex now f body).result
          = .error (.NotConfigured "Wrong password")
      ∧ (c.tokenCall md5hex now f body).result
          = .error (.NotConfigured "Wrong password"))
    ∧ ((parseResponse body).headD ""
          ∉ (["200", "210", "211", "220", "301"] : List String) →
      (c.call md5hex now f method args body).result = .ok (parseResponse body)) := by
  refine ⟨?_, ?_, ?_, ?_, ?_, ?_⟩
  · intro h
    have he : checkEnvelope (parseResponse body)
        = .error (.WrongKey "The supplied API key is wrong") := by
      unfold checkEnvelope
      rw [h]
      simp
    exact ⟨by rw [send_uni_result, he]; rfl, by rw [status_result, he]; rfl,
      by rw [cost_uni_result, he]; rfl, by rw [balance_result, he]; rfl,
      by rw [limit_result, he]; rfl, by rw [tokenCall_result, he]; rfl⟩
  · intro h
    have he : checkEnvelope (parseResponse body)
        = .error (.InternalError "GET used when POST must have been") := by
      unfold checkEnvelope
      rw [h]
      simp
    exact ⟨by rw [send_uni_result, he]; rfl, by rw [status_result, he]; rfl,
      by rw [cost_uni_result, he]; rfl, by rw [balance_result, he]; rfl,
      by rw [limit_result, he]; rfl, by rw [tokenCall_result, he]; rfl⟩
  · intro h
    have he : checkEnvelope (parseResponse body)
        = .error (.InternalError "Unknown method") := by
      unfold checkEnvelope
      rw [h]
      simp
    exact ⟨by rw [send_uni_result, he]; rfl, by rw [status_result, he]; rfl,
      by rw [cost_uni_result, he]; rfl, by rw [balance_result, he]; rfl,
      by rw [limit_result, he]; rfl, by rw [tokenCall_result, he]; rfl⟩
  · intro h
    have he : checkEnvelope (parseResponse body)
        = .error (.Unavailable "The service is temporarily unavailable") := by
      unfold checkEnvelope
      rw [h]
      simp
    exact ⟨by rw [send_uni_result, he]; rfl, by rw [status_result, he]; rfl,
      by rw [cost_uni_result, he]; rfl, by rw [balance_result, he]; rfl,
      by rw [limit_result, he]; rfl, by rw [tokenCall_result, he]; rfl⟩
  · intro h
    have he : checkEnvelope (parseResponse body)
        = .error (.NotConfigured "Wrong password") := by
      unfold checkEnvelope
      rw [h]
      simp
    exact ⟨by rw [send_uni_result, he]; rfl, by rw [status_result, he]; rfl,
      by rw [cost_uni_result, he]; rfl, by rw [balance_result, he]; rfl,
      by rw [limit_result, he]; rfl, by rw [tokenCall_result, he]; rfl⟩
  · intro h
    simp only [List.mem_cons, List.mem_singleton, not_or] at h
    obtain ⟨h1, h2, h3, h4, h5, -⟩ := h
    have he : checkEnvelope (parseResponse body) = .ok (parseResponse body) := by
      unfold checkEnvelope
      rw [if_neg h1, if_neg h2, if_neg h3, if_neg h4, if_neg h5]
    rw [call_result, he]

/-- C3 witness: each envelope code observed on a concrete call, and a
non-envelope body returned verbatim. -/
theorem c3_envelope_codes_witness :
    (cl0.balance md5c 0 "fr" "200").result
        = .error (.WrongKey "The supplied API key is wrong")
    ∧ (cl0.balance md5c 0 "fr" "210").result
        = .error (.InternalError "GET used when POST must have been")
    ∧ (cl0.balance md5c 0 "fr" "211").result
        = .error (.InternalError "Unknown method")
    ∧ (cl0.balance md5c 0 "fr" "220").result
        = .error (.Unavailable "The service is temporarily unavailable")
    ∧ (cl0.balance md5c 0 "fr" "301").result
        = .error (.NotConfigured "Wrong password")
    ∧ (cl0.call md5c 0 "fr" "my/balance" Args.empty "100\n42.75").result
        = .ok ["100", "42.75"] := by
  refine ⟨?_, ?_, ?_, ?_, ?_, ?_⟩
  · exact ((c3_envelope_codes cl0 md5c 0 "fr" "d" "m" "id" "x" Args.empty false false
      "200").1 (by decide)).2.2.2.1
  · exact ((c3_envelope_codes cl0 md5c 0 "fr" "d" "m" "id" "x" Args.empty false false
      "210").2.1 (by decide)).2.2.2.1
  · exact ((c3_envelope_codes cl0 md5c 0 "fr" "d" "m" "id" "x" Args.empty false false
      "211").2.2.1 (by decide)).2.2.2.1
  · exact ((c3_envelope_codes cl0 md5c 0 "fr" "d" "m" "id" "x" Args.empty false false
      "220").2.2.2.1 (by decide)).2.2.2.1
  · exact ((c3_envelope_codes cl0 md5c 0 "fr" "d" "m" "id" "x" Args.empty false false
      "301").2.2.2.2.1 (by decide)).2.2.2.1
  · have h := (c3_envelope_codes cl0 md5c 0 "fr" "d" "m" "id" "my/balance" Args.empty
      false false "100\n42.75").2.2.2.2.2 (by decide)
    rw [h]
    decide

/-- C6: construction fails with `NotConfigured` when no candidate config
file exists, and when the loaded credential mapping lacks the `key` field. -/
theorem c6_construction (fs : String → Option String) :
    ((∀ fn ∈ CONFIG_FILES, fs fn = none) →
      clientInit fs = .error (.NotConfigured
        ("Config file not found, options: " ++ String.intercalate " " CONFIG_FILES)))
    ∧ (∀ raw cfg, CONFIG_FILES.findSome? fs = some raw →
        parseConfig raw = some cfg → cfg "key" = none →
        clientInit fs = .error (.NotConfigured "API key not set.")) := by
  constructor
  · intro h
    have h1 : fs "~/.config/smsru.conf" = none := h _ (by simp [CONFIG_FILES])
    have h2 : fs "/etc/smsru.conf" = none := h _ (by simp [CONFIG_FILES])
    have hf : CONFIG_FILES.findSome? fs = none := by
      simp [CONFIG_FILES, List.findSome?, h1, h2]
    simp [clientInit, hf]
  · intro raw cfg hfind hparse hkey
    simp [clientInit, hfind, hparse, hkey]

/-- C6 witness: an empty file system, and a config missing `key`. -/
theorem c6_construction_witness :
    clientInit (fun _ => none) = .error (.NotConfigured
      ("Config file not found, options: " ++ String.intercalate " " CONFIG_FILES))
    ∧ clientInit (fun fn => if fn = "~/.config/smsru.conf" then some "sender=bob" else none)
        = .error (.NotConfigured "API key not set.") := by
  constructor
  · exact (c6_construction _).1 (fun fn _ => rfl)
  · exact (c6_construction _).2 "sender=bob" (Args.empty.set "sender" "bob")
      (by decide) rfl rfl

/-- C7: every documented code in the send-, delivery- and cost-status tables
looks up to its documented text, every undocumented code to the fallback
"Unknown status", and the lookup is total; the `status` operation returns the
delivery-table description for the code it parsed. -/
theorem c7_status_tables (code : Int) :
    (∀ text, (code, text) ∈ SEND_STATUS →
      dGet SEND_STATUS code "Unknown status" = text)
    ∧ (∀ text, (code, text) ∈ STATUS_STATUS →
      dGet STATUS_STATUS code "Unknown status" = text)
    ∧ (∀ text, (code, text) ∈ COST_STATUS →
      dGet COST_STATUS code "Unknown status" = text)
    ∧ (code ∉ SEND_STATUS.map Prod.fst →
      dGet SEND_STATUS code "Unknown status" = "Unknown status")
    ∧ (code ∉ STATUS_STATUS.map Prod.fst →
      dGet STATUS_STATUS code "Unknown status" = "Unknown status")
    ∧ (code ∉ COST_STATUS.map Prod.fst →
      dGet COST_STATUS code "Unknown status" = "Unknown status")
    ∧ (∀ (c : Client) (md5hex : String → String) (now : Int) (f msgid body : String),
        pyInt ((parseResponse body).headD "") = some code →
        (parseResponse body).headD "" ∉ (["200", "210", "211", "220", "301"] : List String) →
        (c.status md5hex now f msgid body).result
          = .ok (code, dGet STATUS_STATUS code "Unknown status")) := by
  refine ⟨?_, ?_, ?_, ?_, ?_, ?_, ?_⟩
  · intro text h
    exact dGet_of_mem SEND_STATUS code text "Unknown status" h (by decide)
  · intro text h
    exact dGet_of_mem STATUS_STATUS code text "Unknown status" h (by decide)
  · intro text h
    exact dGet_of_mem COST_STATUS code text "Unknown status" h (by decide)
  · intro h
    refine dGet_of_not_mem _ _ _ (fun p hp hpk => h ?_)
    exact hpk ▸ List.mem_map_of_mem Prod.fst hp
  · intro h
    refine dGet_of_not_mem _ _ _ (fun p hp hpk => h ?_)
    exact hpk ▸ List.mem_map_of_mem Prod.fst hp
  · intro h
    refine dGet_of_not_mem _ _ _ (fun p hp hpk => h ?_)
    exact hpk ▸ List.mem_map_of_mem Prod.fst hp
  · intro c md5hex now f msgid body hint henv
    simp only [List.mem_cons, List.not_mem_nil, or_false, not_or] at henv
    obtain ⟨h1, h2, h3, h4, h5⟩ := henv
    have he : checkEnvelope (parseResponse body) = .ok (parseResponse body) := by
      unfold checkEnvelope
      rw [if_neg h1, if_neg h2, if_neg h3, if_neg h4, if_neg h5]
    rw [status_result, he]
    show statusDecode (parseResponse body) = _
    unfold statusDecode
    rw [hint]

/-- C7 witness: a documented code, an undocumented code, and the status
operation on a stub "103" response. -/
theorem c7_status_tables_witness :
    dGet STATUS_STATUS 103 "Unknown status" = "Message delivered"
    ∧ dGet SEND_STATUS 999 "Unknown status" = "Unknown status"
    ∧ (cl0.status md5c 0 "fr" "12345" "103").result
        = .ok (103, "Message delivered") := by
  refine ⟨?_, ?_, ?_⟩
  · exact (c7_status_tables 103).2.1 "Message delivered" (by decide)
  · exact (c7_status_tables 999).2.2.2.1 (by decide)
  · have h := (c7_status_tables 103).2.2.2.2.2.2 cl0 md5c 0 "fr" "12345" "103"
      (by decide) (by decide)
    rw [h]
    decide

/-- C1 counterexample: `login = "+"` and `password = "secret"` are both
non-empty, yet the send call keeps `api_id`, fetches no token and sends no
`sig` (the leading-`+` strip empties the login, so enhanced auth is skipped). -/
theorem c1_counterexample :
    clP.config "login" = some "+" ∧ ("+" : String) ≠ ""
    ∧ clP.config "password" = some "secret" ∧ ("secret" : String) ≠ ""
    ∧ (clP.send md5c 0 "fr" "num" (.uni "hi") false false "100\nid").sentArgs "api_id"
        = some "k"
    ∧ (clP.send md5c 0 "fr" "num" (.uni "hi") false false "100\nid").sentArgs "sig" = none
    ∧ (clP.send md5c 0 "fr" "num" (.uni "hi") false false "100\nid").sentArgs "token" = none
    ∧ (clP.send md5c 0 "fr" "num" (.uni "hi") false false "100\nid").fetched = false := by
  decide

/-- C1 (amended): when the login stripped of leading `+` is non-empty and the
password is non-empty, send and cost calls attach `login` (leading `+`
stripped), the cached/fresh `token`, and `sig` equal to the MD5 hex digest of
the password concatenated with the token, and omit `api_id`. -/
theorem c1_enhanced_auth (c : Client) (md5hex : String → String) (now : Int)
    (f dest m body l p : String) (e t : Bool)
    (hl : c.config "login" = some l) (hl2 : lstripPlus l ≠ "")
    (hp : c.config "password" = some p) (hp2 : p ≠ "") :
    ((c.send md5hex now f dest (.uni m) e t body).sentArgs "login"
        = some (lstripPlus l)
    ∧ (c.send md5hex now f dest (.uni m) e t body).sentArgs "token"
        = some (c.getToken now f).1
    ∧ (c.send md5hex now f dest (.uni m) e t body).sentArgs "sig"
        = some (md5hex (p ++ (c.getToken now f).1))
    ∧ (c.send md5hex now f dest (.uni m) e t body).sentArgs "api_id" = none)
    ∧ ((c.cost md5hex now f dest (.uni m) body).sentArgs "login"
        = some (lstripPlus l)
    ∧ (c.cost md5hex now f dest (.uni m) body).sentArgs "token"
        = some (c.getToken now f).1
    ∧ (c.cost md5hex now f dest (.uni m) body).sentArgs "sig"
        = some (md5hex (p ++ (c.getToken now f).1))
    ∧ (c.cost md5hex now f dest (.uni m) body).sentArgs "api_id" = none) := by
  have hs := (call_enhanced c md5hex now f "sms/send" (sendArgs c dest m e t) body l p
    (Or.inl rfl) hl hl2 hp hp2).1
  have hc := (call_enhanced c md5hex now f "sms/cost"
    ((Args.empty.set "to" dest).set "text" m) body l p (Or.inr rfl) hl hl2 hp hp2).1
  constructor
  · rw [send_uni_sentArgs, hs]
    refine ⟨?_, ?_, ?_, ?_⟩ <;> simp [Args.set, Args.del]
  · rw [cost_uni_sentArgs, hc]
    refine ⟨?_, ?_, ?_, ?_⟩ <;> simp [Args.set, Args.del]

/-- C1 witness: the enhanced-auth parameters on a concrete client. -/
theorem c1_enhanced_auth_witness :
    (clE.send md5c 7 "tokA" "num" (.uni "hi") false false "100\nid").sentArgs "login"
        = some "alice"
    ∧ (clE.send md5c 7 "tokA" "num" (.uni "hi") false false "100\nid").sentArgs "token"
        = some "tokA"
    ∧ (clE.send md5c 7 "tokA" "num" (.uni "hi") false false "100\nid").sentArgs "sig"
        = some (md5c ("secret" ++ "tokA"))
    ∧ (clE.send md5c 7 "tokA" "num" (.uni "hi") false false "100\nid").sentArgs "api_id"
        = none := by
  have h := (c1_enhanced_auth clE md5c 7 "tokA" "num" "hi" "100\nid" "alice" "secret"
    false false (by decide) (by decide) (by decide) (by decide)).1
  obtain ⟨h1, h2, h3, h4⟩ := h
  exact ⟨h1, by rw [h2]; decide, by rw [h3]; decide, h4⟩

/-- C10: when the `login`/`password` keys are present but either value is
empty or the login is all `+` characters, send and cost fall back to simple
auth: `api_id` is attached, no token is fetched, no `sig`/`login`/`token`
parameter is sent, and the client state is unchanged. -/
theorem c10_falsy_credentials (c : Client) (md5hex : String → String) (now : Int)
    (f dest m body l p key : String) (e t : Bool)
    (hl : c.config "login" = some l) (hp : c.config "password" = some p)
    (hk : c.config "key" = some key)
    (hw : l = "" ∨ p = "" ∨ lstripPlus l = "") :
    ((c.send md5hex now f dest (.uni m) e t body).sentArgs "api_id" = some key
    ∧ (c.send md5hex now f dest (.uni m) e t body).sentArgs "sig" = none
    ∧ (c.send md5hex now f dest (.uni m) e t body).sentArgs "login" = none
    ∧ (c.send md5hex now f dest (.uni m) e t body).sentArgs "token" = none
    ∧ (c.send md5hex now f dest (.uni m) e t body).fetched = false
    ∧ (c.send md5hex now f dest (.uni m) e t body).client = c)
    ∧ ((c.cost md5hex now f dest (.uni m) body).sentArgs "api_id" = some key
    ∧ (c.cost md5hex now f dest (.uni m) body).sentArgs "sig" = none
    ∧ (c.cost md5hex now f dest (.uni m) body).sentArgs "login" = none
    ∧ (c.cost md5hex now f dest (.uni m) body).sentArgs "token" = none
    ∧ (c.cost md5hex now f dest (.uni m) body).fetched = false
    ∧ (c.cost md5hex now f dest (.uni m) body).client = c) := by
  have hw2 : lstripPlus ((c.config "login").getD "") = ""
      ∨ (c.config "password").getD "" = "" := by
    rw [hl, hp]
    rcases hw with h | h | h
    · left
      rw [h]
      exact lstripPlus_empty
    · right
      exact h
    · left
      exact h
  have hs := call_simple c md5hex now f "sms/send" (sendArgs c dest m e t) body
    (Or.inr hw2)
  have hc := call_simple c md5hex now f "sms/cost"
    ((Args.empty.set "to" dest).set "text" m) body (Or.inr hw2)
  constructor
  · refine ⟨?_, ?_, ?_, ?_, ?_, ?_⟩
    · rw [send_uni_sentArgs, hs.1, hk]
      simp [Args.set]
    · rw [send_uni_sentArgs, hs.1, Args.get_set_ne _ _ _ _ (by decide)]
      exact sendArgs_none c dest m e t "sig" (by decide) (by decide) (by decide)
        (by decide) (by decide)
    · rw [send_uni_sentArgs, hs.1, Args.get_set_ne _ _ _ _ (by decide)]
      exact sendArgs_none c dest m e t "login" (by decide) (by decide) (by decide)
        (by decide) (by decide)
    · rw [send_uni_sentArgs, hs.1, Args.get_set_ne _ _ _ _ (by decide)]
      exact sendArgs_none c dest m e t "token" (by decide) (by decide) (by decide)
        (by decide) (by decide)
    · rw [send_uni_fetched, hs.2.2]
    · rw [send_uni_client, hs.2.1]
  · refine ⟨?_, ?_, ?_, ?_, ?_, ?_⟩
    · rw [cost_uni_sentArgs, hc.1, hk]
      simp [Args.set]
    · rw [cost_uni_sentArgs, hc.1]
      simp [Args.set, Args.empty]
    · rw [cost_uni_sentArgs, hc.1]
      simp [Args.set, Args.empty]
    · rw [cost_uni_sentArgs, hc.1]
      simp [Args.set, Args.empty]
    · rw [cost_uni_fetched, hc.2.2]
    · rw [cost_uni_client, hc.2.1]

/-- C10 witness: a client with empty password, and one with an all-`+`
login, both fall back to simple auth. -/
theorem c10_falsy_credentials_witness :
    (clP.send md5c 0 "fr" "num" (.uni "hi") false false "100\nid").sentArgs "api_id"
        = some "k"
    ∧ (clP.send md5c 0 "fr" "num" (.uni "hi") false false "100\nid").sentArgs "login" = none
    ∧ (clP.cost md5c 0 "fr" "num" (.uni "hi") "100\n1.50\n5").sentArgs "sig" = none
    ∧ (clP.cost md5c 0 "fr" "num" (.uni "hi") "100\n1.50\n5").fetched = false := by
  have h := c10_falsy_credentials clP md5c 0 "fr" "num" "hi" "100\nid" "+" "secret" "k"
    false false (by decide) (by decide) (by decide) (Or.inr (Or.inr (by decide)))
  have h2 := c10_falsy_credentials clP md5c 0 "fr" "num" "hi" "100\n1.50\n5" "+" "secret" "k"
    false false (by decide) (by decide) (by decide) (Or.inr (Or.inr (by decide)))
  exact ⟨h.1.1, h.1.2.2.1, h2.2.2.1, h2.2.2.2.2.2.1⟩

/-- C2: on a client with no cached token an enhanced-auth send fetches a
token and records the time; a second enhanced-auth call within 500 seconds
reuses that token with no new `auth/get_token` request, while a call more
than 500 seconds later discards it and fetches exactly one fresh token,
recording the current time. -/
theorem c2_token_cache (c : Client) (md5hex : String → String) (t1 t2 : Int)
    (f1 f2 dest m body1 body2 l p : String) (e t : Bool)
    (hl : c.config "login" = some l) (hl2 : lstripPlus l ≠ "")
    (hp : c.config "password" = some p) (hp2 : p ≠ "")
    (htok : c.token = none) :
    (c.send md5hex t1 f1 dest (.uni m) e t body1).fetched = true
    ∧ (c.send md5hex t1 f1 dest (.uni m) e t body1).sentArgs "token" = some f1
    ∧ (c.send md5hex t1 f1 dest (.uni m) e t body1).client.token = some f1
    ∧ (c.send md5hex t1 f1 dest (.uni m) e t body1).client.tokenTs = t1
    ∧ (t2 - t1 ≤ 500 →
        ((c.send md5hex t1 f1 dest (.uni m) e t body1).client.send md5hex t2 f2 dest
            (.uni m) e t body2).fetched = false
        ∧ ((c.send md5hex t1 f1 dest (.uni m) e t body1).client.send md5hex t2 f2 dest
            (.uni m) e t body2).sentArgs "token" = some f1
        ∧ ((c.send md5hex t1 f1 dest (.uni m) e t body1).client.send md5hex t2 f2 dest
            (.uni m) e t body2).client.token = some f1
        ∧ ((c.send md5hex t1 f1 dest (.uni m) e t body1).client.send md5hex t2 f2 dest
            (.uni m) e t body2).client.tokenTs = t1)
    ∧ (500 < t2 - t1 →
        ((c.send md5hex t1 f1 dest (.uni m) e t body1).client.send md5hex t2 f2 dest
            (.uni m) e t body2).fetched = true
        ∧ ((c.send md5hex t1 f1 dest (.uni m) e t body1).client.send md5hex t2 f2 dest
            (.uni m) e t body2).sentArgs "token" = some f2
        ∧ ((c.send md5hex t1 f1 dest (.uni m) e t body1).client.send md5hex t2 f2 dest
            (.uni m) e t body2).client.token = some f2
        ∧ ((c.send md5hex t1 f1 dest (.uni m) e t body1).client.send md5hex t2 f2 dest
            (.uni m) e t body2).client.tokenTs = t2) := by
  have hg1 : c.getToken t1 f1 = (f1, { c with token := some f1, tokenTs := t1 }, true) :=
    getToken_none c t1 f1 htok
  have he1 := call_enhanced c md5hex t1 f1 "sms/send" (sendArgs c dest m e t) body1 l p
    (Or.inl rfl) hl hl2 hp hp2
  have hcl1 : (c.send md5hex t1 f1 dest (.uni m) e t body1).client
      = { c with token := some f1, tokenTs := t1 } := by
    rw [send_uni_client, he1.2.1, hg1]
  have hf1 : (c.send md5hex t1 f1 dest (.uni m) e t body1).fetched = true := by
    rw [send_uni_fetched, he1.2.2, hg1]
  have ht1 : (c.send md5hex t1 f1 dest (.uni m) e t body1).sentArgs "token" = some f1 := by
    rw [send_uni_sentArgs, he1.1, hg1]
    simp [Args.set, Args.del]
  refine ⟨hf1, ht1, by rw [hcl1], by rw [hcl1], ?_, ?_⟩
  · intro hle
    set c1 : Client := { c with token := some f1, tokenTs := t1 } with hc1
    have hg2 : c1.getToken t2 f2 = (f1, { c1 with token := some f1 }, false) :=
      getToken_cached c1 t2 f2 f1 (by simp [hc1]; omega) rfl
    have he2 := call_enhanced c1 md5hex t2 f2 "sms/send" (sendArgs c1 dest m e t) body2
      l p (Or.inl rfl) (by simp [hc1, hl]) hl2 (by simp [hc1, hp]) hp2
    rw [hcl1]
    refine ⟨?_, ?_, ?_, ?_⟩
    · rw [send_uni_fetched, he2.2.2, hg2]
    · rw [send_uni_sentArgs, he2.1, hg2]
      simp [Args.set, Args.del]
    · rw [send_uni_client, he2.2.1, hg2]
    · rw [send_uni_client, he2.2.1, hg2]
  · intro hgt
    set c1 : Client := { c with token := some f1, tokenTs := t1 } with hc1
    have hg2 : c1.getToken t2 f2 = (f2, { c1 with token := some f2, tokenTs := t2 }, true) :=
      getToken_stale c1 t2 f2 (by simp [hc1]; omega)
    have he2 := call_enhanced c1 md5hex t2 f2 "sms/send" (sendArgs c1 dest m e t) body2
      l p (Or.inl rfl) (by simp [hc1, hl]) hl2 (by simp [hc1, hp]) hp2
    rw [hcl1]
    refine ⟨?_, ?_, ?_, ?_⟩
    · rw [send_uni_fetched, he2.2.2, hg2]
    · rw [send_uni_sentArgs, he2.1, hg2]
      simp [Args.set, Args.del]
    · rw [send_uni_client, he2.2.1, hg2]
    · rw [send_uni_client, he2.2.1, hg2]

/-- C2 witness: reuse at 400 seconds, refresh at 501 seconds. -/
theorem c2_token_cache_witness :
    ((clE.send md5c 0 "tokA" "num" (.uni "hi") false false "100\nid").client.send md5c 400
        "tokB" "num" (.uni "hi") false false "100\nid").fetched = false
    ∧ ((clE.send md5c 0 "tokA" "num" (.uni "hi") false false "100\nid").client.send md5c 400
        "tokB" "num" (.uni "hi") false false "100\nid").sentArgs "token" = some "tokA"
    ∧ ((clE.send md5c 0 "tokA" "num" (.uni "hi") false false "100\nid").client.send md5c 501
        "tokB" "num" (.uni "hi") false false "100\nid").fetched = true
    ∧ ((clE.send md5c 0 "tokA" "num" (.uni "hi") false false "100\nid").client.send md5c 501
        "tokB" "num" (.uni "hi") false false "100\nid").sentArgs "token" = some "tokB" := by
  have ha := c2_token_cache clE md5c 0 400 "tokA" "tokB" "num" "hi" "100\nid" "100\nid"
    "alice" "secret" false false (by decide) (by decide) (by decide) (by decide) rfl
  have hb := c2_token_cache clE md5c 0 501 "tokA" "tokB" "num" "hi" "100\nid" "100\nid"
    "alice" "secret" false false (by decide) (by decide) (by decide) (by decide) rfl
  have ha2 := ha.2.2.2.2.1 (by omega)
  have hb2 := hb.2.2.2.2.2 (by omega)
  exact ⟨ha2.1, ha2.2.1, hb2.1, hb2.2.1⟩

/-- C5 counterexample: a multi-line non-success response makes `send` return
a non-`None` messageId together with a code different from 100 (the `None`
padding is appended after the existing payload line, and `res[1]` picks the
payload line up). -/
theorem c5_counterexample :
    (cl0.send md5c 0 "fr" "num" (.uni "hello") false false "202\nextra").result
      = .ok (202, "Bad recipient", some "extra") ∧ (202 : Int) ≠ 100 := by
  decide

/-- C5 (amended): `send` returns `(code, send-table description, second
response line)`; the messageId is the second line whenever the response has
one (whatever the code), and `None` exactly when a non-"100" response has a
single line; in particular "100\n12345" yields
`(100, "Message accepted", "12345")`. -/
theorem c5_send_result (c : Client) (md5hex : String → String) (now : Int)
    (f dest m : String) (e t : Bool) (body : String) :
    ((parseResponse body).headD "" = "100" → 2 ≤ (parseResponse body).length →
      (c.send md5hex now f dest (.uni m) e t body).result
        = .ok (100, "Message accepted", (parseResponse body).get? 1))
    ∧ (∀ code : Int,
        (parseResponse body).headD "" ∉ (["200", "210", "211", "220", "301"] : List String) →
        (parseResponse body).headD "" ≠ "100" →
        pyInt ((parseResponse body).headD "") = some code →
        (parseResponse body).length = 1 →
        (c.send md5hex now f dest (.uni m) e t body).result
          = .ok (code, dGet SEND_STATUS code "Unknown status", none))
    ∧ (∀ code : Int,
        (parseResponse body).headD "" ∉ (["200", "210", "211", "220", "301"] : List String) →
        (parseResponse body).headD "" ≠ "100" →
        pyInt ((parseResponse body).headD "") = some code →
        2 ≤ (parseResponse body).length →
        (c.send md5hex now f dest (.uni m) e t body).result
          = .ok (code, dGet SEND_STATUS code "Unknown status",
              (parseResponse body).get? 1)) := by
  refine ⟨?_, ?_, ?_⟩
  · intro h1 h2
    have he : checkEnvelope (parseResponse body) = .ok (parseResponse body) := by
      unfold checkEnvelope
      rw [h1]
      simp
    rw [send_uni_result, he]
    obtain ⟨a, b, rest, hshape⟩ := list_shape_two _ h2
    rw [hshape]
    rw [hshape] at h1
    have ha : a = "100" := h1
    subst ha
    rfl
  · intro code henv hne hint hlen
    simp only [List.mem_cons, List.not_mem_nil, or_false, not_or] at henv
    obtain ⟨h1, h2, h3, h4, h5⟩ := henv
    have he : checkEnvelope (parseResponse body) = .ok (parseResponse body) := by
      unfold checkEnvelope
      rw [if_neg h1, if_neg h2, if_neg h3, if_neg h4, if_neg h5]
    rw [send_uni_result, he]
    cases hres : parseResponse body with
    | nil => rw [hres] at hlen; simp at hlen
    | cons a tl =>
      cases tl with
      | cons b rest => rw [hres] at hlen; simp at hlen
      | nil =>
        rw [hres] at hne hint
        show sendDecode [a] = _
        unfold sendDecode
        rw [hint]
        simp only [List.headD_cons] at hne ⊢
        rw [if_pos hne]
        rfl
  · intro code henv hne hint hlen
    simp only [List.mem_cons, List.not_mem_nil, or_false, not_or] at henv
    obtain ⟨h1, h2, h3, h4, h5⟩ := henv
    have he : checkEnvelope (parseResponse body) = .ok (parseResponse body) := by
      unfold checkEnvelope
      rw [if_neg h1, if_neg h2, if_neg h3, if_neg h4, if_neg h5]
    rw [send_uni_result, he]
    obtain ⟨a, b, rest, hshape⟩ := list_shape_two _ hlen
    rw [hshape] at hne hint ⊢
    show sendDecode (a :: b :: rest) = _
    unfold sendDecode
    rw [hint]
    simp only [List.headD_cons] at hne ⊢
    rw [if_pos hne]
    rfl

/-- C5 witness: the documented example, and a single-line failure giving a
`None` messageId. -/
theorem c5_send_result_witness :
    (cl0.send md5c 0 "fr" "+79112223344" (.uni "hello") false false "100\n12345").result
      = .ok (100, "Message accepted", some "12345")
    ∧ (cl0.send md5c 0 "fr" "+79112223344" (.uni "hello") false false "208").result
      = .ok (208, "Wrong time", none) := by
  constructor
  · have h := (c5_send_result cl0 md5c 0 "fr" "+79112223344" "hello" false false
      "100\n12345").1 (by decide) (by decide)
    rw [h]
    decide
  · have h := (c5_send_result cl0 md5c 0 "fr" "+79112223344" "hello" false false
      "208").2.1 208 (by decide) (by decide) (by decide) (by decide)
    rw [h]
    decide

/-- C9: a "100" send response with only one line, and a "100" cost response
with fewer than three lines, make the result extraction index past the end
of the line list: the operation fails with an uncaught `IndexError`. -/
theorem c9_truncated_success (c : Client) (md5hex : String → String) (now : Int)
    (f dest m : String) (e t : Bool) (body : String)
    (h1 : (parseResponse body).headD "" = "100") :
    ((parseResponse body).length < 2 →
      (c.send md5hex now f dest (.uni m) e t body).result = .error .IndexError)
    ∧ ((parseResponse body).length < 3 →
      (c.cost md5hex now f dest (.uni m) body).result = .error .IndexError) := by
  have he : checkEnvelope (parseResponse body) = .ok (parseResponse body) := by
    unfold checkEnvelope
    rw [h1]
    simp
  constructor
  · intro hlen
    rw [send_uni_result, he]
    cases hres : parseResponse body with
    | nil =>
      rw [hres] at h1
      simp at h1
    | cons a tl =>
      rw [hres] at h1 hlen
      have ha : a = "100" := h1
      subst ha
      cases tl with
      | nil => rfl
      | cons b rest => simp at hlen; omega
  · intro hlen
    rw [cost_uni_result, he]
    cases hres : parseResponse body with
    | nil =>
      rw [hres] at h1
      simp at h1
    | cons a tl =>
      rw [hres] at h1 hlen
      have ha : a = "100" := h1
      subst ha
      cases tl with
      | nil => rfl
      | cons b rest =>
        cases rest with
        | nil => rfl
        | cons x more => simp at hlen; omega

/-- C9 witness: concrete truncated success responses. -/
theorem c9_truncated_success_witness :
    (cl0.send md5c 0 "fr" "num" (.uni "hi") false false "100").result
      = .error .IndexError
    ∧ (cl0.cost md5c 0 "fr" "num" (.uni "hi") "100").result = .error .IndexError
    ∧ (cl0.cost md5c 0 "fr" "num" (.uni "hi") "100\n1.50").result
      = .error .IndexError := by
  refine ⟨?_, ?_, ?_⟩
  · exact (c9_truncated_success cl0 md5c 0 "fr" "num" "hi" false false "100"
      (by decide)).1 (by decide)
  · exact (c9_truncated_success cl0 md5c 0 "fr" "num" "hi" false false "100"
      (by decide)).2 (by decide)
  · exact (c9_truncated_success cl0 md5c 0 "fr" "num" "hi" false false "100\n1.50"
      (by decide)).2 (by decide)

/-- C4 counterexample: `cost` with a non-text (byte-string) message does not
fail with a validation error before the request: with an all-ASCII byte
message the call proceeds and returns a normal result. -/
theorem c4_counterexample :
    (cl0.cost md5c 0 "fr" "+79112223344" (.bytes [104, 101, 108, 108, 111])
      "100\n1.50\n5").result = .ok (100, "Success", some "1.50", some "5") := by
  decide

/-- C4 (amended): `send` rejects a non-unicode message with `ValueError`
before any request (the outcome is a fixed error record, independent of the
response); `cost` performs no such check: an all-ASCII byte message is
implicitly decoded and the request is issued exactly as for the equivalent
unicode message, and only a non-ASCII byte message fails (with a
`UnicodeDecodeError`, raised while encoding, before the request). -/
theorem c4_message_validation (c : Client) (md5hex : String → String) (now : Int)
    (f dest body : String) (b : List Nat) (e t : Bool) :
    (c.send md5hex now f dest (.bytes b) e t body
      = { client := c, sentArgs := Args.empty, fetched := false,
          result := .error (.ValueError "message must be a unicode") })
    ∧ (¬ (b.all (fun x => x < 128) = true) →
      c.cost md5hex now f dest (.bytes b) body
        = { client := c, sentArgs := Args.empty, fetched := false,
            result := .error
              (.ValueError "UnicodeDecodeError: ascii codec can not decode byte") })
    ∧ (b.all (fun x => x < 128) = true →
      c.cost md5hex now f dest (.bytes b) body
        = c.cost md5hex now f dest (.uni (String.mk (b.map Char.ofNat))) body) := by
  refine ⟨rfl, ?_, ?_⟩
  · intro h
    rw [Bool.not_eq_true] at h
    simp [Client.cost, pyEncodeUtf8Str, h]
  · intro h
    simp [Client.cost, pyEncodeUtf8Str, h]

/-- C4 witness: an ASCII byte message behaves like the unicode message and
the request is issued; a non-ASCII byte message fails before the request. -/
theorem c4_message_validation_witness :
    (¬ (([200] : List Nat).all (fun x => x < 128) = true)
      ∧ cl0.cost md5c 0 "fr" "num" (.bytes [200]) "100\n1.50\n5"
        = { client := cl0, sentArgs := Args.empty, fetched := false,
            result := .error
              (.ValueError "UnicodeDecodeError: ascii codec can not decode byte") })
    ∧ (([104, 101, 108, 108, 111] : List Nat).all (fun x => x < 128) = true
      ∧ cl0.cost md5c 0 "fr" "num" (.bytes [104, 101, 108, 108, 111]) "100\n1.50\n5"
        = cl0.cost md5c 0 "fr" "num"
            (.uni (String.mk ([104, 101, 108, 108, 111].map Char.ofNat))) "100\n1.50\n5") := by
  constructor
  · exact ⟨by decide, (c4_message_validation cl0 md5c 0 "fr" "num" "100\n1.50\n5"
      [200] false false).2.1 (by decide)⟩
  · exact ⟨by decide, (c4_message_validation cl0 md5c 0 "fr" "num" "100\n1.50\n5"
      [104, 101, 108, 108, 111] false false).2.2 (by decide)⟩

/-- C8 counterexample: on a response whose first line is "200", `balance`
raises the typed `WrongKey` envelope error, not a generic error carrying the
code "200" as its detail. -/
theorem c8_counterexample :
    (cl0.balance md5c 0 "fr" "200").result
        = .error (.WrongKey "The supplied API key is wrong")
    ∧ ApiError.WrongKey "The supplied API key is wrong" ≠ .GenericError "200" := by
  decide

/-- C8 (amended): `balance` returns the second response line parsed as a
float when the first line is "100"; the envelope codes 200/210/211/220/301
raise their typed errors; every other first line raises a generic error
carrying that code as its detail. -/
theorem c8_balance (c : Client) (md5hex : String → String) (now : Int)
    (f body : String) :
    ((parseResponse body).headD "" = "100" →
      ∀ sv : String, ∀ v : Rat, (parseResponse body).get? 1 = some sv →
        pyFloat sv = some v →
        (c.balance md5hex now f body).result = .ok v)
    ∧ ((parseResponse body).headD ""
          ∉ (["100", "200", "210", "211", "220", "301"] : List String) →
      (c.balance md5hex now f body).result
        = .error (.GenericError ((parseResponse body).headD ""))) := by
  constructor
  · intro h1 sv v hs hv
    have he : checkEnvelope (parseResponse body) = .ok (parseResponse body) := by
      unfold checkEnvelope
      rw [h1]
      simp
    rw [balance_result, he]
    show balanceDecode (parseResponse body) = _
    unfold balanceDecode
    rw [h1, if_pos rfl, hs]
    show (match pyFloat sv with
      | none => Except.error (ApiError.ValueError "could not convert string to float")
      | some w => Except.ok w) = Except.ok v
    rw [hv]
  · intro henv
    simp only [List.mem_cons, List.not_mem_nil, or_false, not_or] at henv
    obtain ⟨h0, h1, h2, h3, h4, h5⟩ := henv
    have he : checkEnvelope (parseResponse body) = .ok (parseResponse body) := by
      unfold checkEnvelope
      rw [if_neg h1, if_neg h2, if_neg h3, if_neg h4, if_neg h5]
    rw [balance_result, he]
    show balanceDecode (parseResponse body) = _
    unfold balanceDecode
    rw [if_neg h0]

/-- C8 witness: the documented example "100\n42.75" yields 42.75, and an
unrecognized code "215" raises the generic error carrying it. -/
theorem c8_balance_witness :
    (cl0.balance md5c 0 "fr" "100\n42.75").result = .ok (42.75 : Rat)
    ∧ (cl0.balance md5c 0 "fr" "215").result = .error (.GenericError "215") := by
  constructor
  · refine (c8_balance cl0 md5c 0 "fr" "100\n42.75").1 (by decide) "42.75"
      (42.75 : Rat) (by decide) ?_
    have hr : pyFloat "42.75"
        = some ((1 : Rat) * ((42 : Nat) + (75 : Nat) / ((10 : Rat) ^ 2))) := rfl
    rw [hr]
    norm_num
  · have h := (c8_balance cl0 md5c 0 "fr" "215").2 (by decide)
    rw [h]
    decide

end Smsru
